import Mathlib

/-!
# Verification of `tutor/env.py`

A shallow embedding of the template-rendering module `tutor/env.py` of the
`tutor` project, together with proofs about it.

Conventions of the embedding:
* Python strings are Lean `String`s; the Python string builtins used by the
  source (`split`, `startswith`, `endswith`, `strip`, `join`) are modelled on
  the underlying character lists so that they evaluate in the kernel.
* The external templating engine (jinja2) is modelled only as far as the
  source relies on it: a template is a sequence of literal-text and
  variable-reference nodes, rendered against a string-keyed configuration
  mapping with strict-undefined semantics (a reference to a missing key is an
  error carrying the key, mirroring `jinja2.StrictUndefined`), and the
  file-system loader resolves a template path against an ordered list of
  template roots, first match wins (mirroring `jinja2.FileSystemLoader`).
* The plugin collaborator (`tutor.plugins`) is passed in as parameters:
  `iter_enabled` yields the ordered list of enabled plugins and
  `iter_patches` the ordered list of (plugin name, patch text) pairs for a
  patch name.
* Python exceptions are modelled with `Except String`, the error being the
  human-readable message of the raised `TutorError`.
* The file system is modelled as a partial mapping from paths to contents
  for reads, and as the ordered list of performed writes for the save driver.
-/

namespace Tutor

/-! ## Models of the Python string builtins used by the source -/

/-- Model of Python `s.split(sep)` for a one-character separator, as used by
`path.split("/")` in `is_part_of_env`. -/
def pySplit (sep : Char) (s : String) : List String :=
  (s.data.splitOn sep).map String.mk

/-- Model of Python `s.startswith(pat)`. -/
def pyStartswith (s pat : String) : Bool :=
  pat.data.isPrefixOf s.data

/-- Model of Python `s.endswith(pat)`. -/
def pyEndswith (s pat : String) : Bool :=
  pat.data.isSuffixOf s.data

/-- Model of Python `s.strip()`: drop leading and trailing whitespace. -/
def pyStrip (s : String) : String :=
  String.mk (((s.data.dropWhile Char.isWhitespace).reverse.dropWhile
    Char.isWhitespace).reverse)

/-- A single-quote character, written via its code point. -/
def sq : String := String.singleton (Char.ofNat 39)

/-! ## The configuration mapping and the templating-engine model -/

/-- A configuration: a flat string-keyed mapping, modelled as an association
list (the Python `dict` passed around by `env.py`). -/
abbrev Config := List (String × String)

/-- Key lookup in a configuration. -/
def Config.get (c : Config) (k : String) : Option String :=
  List.lookup k c

/-- A node of a parsed template: literal text, or a reference to a
configuration variable (`{{ KEY }}` in jinja2 syntax). -/
inductive Node where
  | text : String → Node
  | var : String → Node
deriving DecidableEq

/-- A template: a sequence of nodes.  This is the fragment of the external
jinja2 engine that `env.py` relies on. -/
abbrev Template := List Node

/-- The configuration variables referenced by a template, in evaluation
order. -/
def templateVars : Template → List String
  | [] => []
  | Node.text _ :: rest => templateVars rest
  | Node.var k :: rest => k :: templateVars rest

/-- Model of `template.render(**config)` under `jinja2.StrictUndefined`
semantics: substitute each variable from the configuration; a reference to a
key absent from the configuration raises `UndefinedError`, modelled as
`.error k` carrying the (first) missing key.  A missing key is never replaced
by a default or blank value. -/
def renderTemplate (config : Config) : Template → Except String String
  | [] => .ok ""
  | Node.text s :: rest => (renderTemplate config rest).map (fun r => s ++ r)
  | Node.var k :: rest =>
    match Config.get config k with
    | none => .error k
    | some v => (renderTemplate config rest).map (fun r => v ++ r)

/-- Model of `e.args[0]` for the `jinja2.UndefinedError` raised by
`StrictUndefined` on a missing key `k`: the message `'k' is undefined`. -/
def undefinedMessage (k : String) : String :=
  sq ++ k ++ sq ++ " is undefined"

/-- A set of template roots on disk, modelled as: which template (if any)
each root holds at each relative path. -/
abbrev TemplateFS := String → String → Option Template

/-- Model of template lookup through `jinja2.FileSystemLoader` over an
ordered list of template roots: the first root holding the path wins. -/
def getTemplate (tfs : TemplateFS) : List String → String → Option Template
  | [], _ => none
  | root :: rest, path =>
    match tfs root path with
    | some t => some t
    | none => getTemplate tfs rest path

/-! ## The `Renderer` class (`env.py`, lines 19-116) -/

/-- The base directory of the core templates
(`pkg_resources.resource_filename("tutor", "templates")`); an
environment-specific absolute path, fixed here as an arbitrary constant. -/
def TEMPLATES_ROOT : String := "/site-packages/tutor/templates"

/-- `VERSION_FILENAME = "version"` (`env.py`, line 16). -/
def VERSION_FILENAME : String := "version"

/-- A plugin, as exposed by the `tutor.plugins` collaborator: a name and an
optional template root (`None` or the empty string meaning none, following
Python truthiness of `plugin.templates_root`). -/
structure Plugin where
  name : String
  templates_root : Option String

/-- The state of a constructed `Renderer`: the configuration snapshot taken
by `__init__` (`self.config = deepcopy(config)`, line 40) and the ordered
template roots handed to the jinja2 environment loader (lines 43-46). -/
structure Renderer where
  config : Config
  template_roots : List String

/-- `Renderer.__init__(config, template_roots)` (lines 39-54): takes a
defensive copy of the configuration (`deepcopy`, which in value semantics is
the value itself) and records the template roots of the environment. -/
def Renderer.init (config : Config) (template_roots : List String) : Renderer :=
  { config := config, template_roots := template_roots }

/-- The template-root list built by `Renderer.instance` (lines 27-30): start
from `[TEMPLATES_ROOT]`, then append each enabled plugin's `templates_root`
when it is truthy. -/
def templateRootsFor (enabled : List Plugin) : List String :=
  enabled.foldl
    (fun template_roots plugin =>
      match plugin.templates_root with
      | some rt => if rt = "" then template_roots else template_roots ++ [rt]
      | none => template_roots)
    [TEMPLATES_ROOT]

/-- The renderer built by `Renderer.instance` when the cache misses
(lines 24-32). -/
def Renderer.build (iter_enabled : Config → List Plugin) (config : Config) :
    Renderer :=
  Renderer.init config (templateRootsFor (iter_enabled config))

/-- `Renderer.instance(config)` (lines 22-33): process-wide cache.  The class
attribute `INSTANCE` is the explicit `Option Renderer` state; the call
returns the renderer handed to the caller together with the new cache state.
If the cache holds a renderer whose stored configuration equals `config`, it
is returned as is; otherwise a new renderer is built and cached. -/
def Renderer.instance' (iter_enabled : Config → List Plugin) (config : Config)
    (INSTANCE : Option Renderer) : Renderer × Option Renderer :=
  match INSTANCE with
  | some r =>
    if r.config = config then (r, some r)
    else
      let r' := Renderer.build iter_enabled config
      (r', some r')
  | none =>
    let r' := Renderer.build iter_enabled config
    (r', some r')

/-- The message of the `TutorError` raised by `Renderer.__render`
(lines 113-116) on a missing configuration key. -/
def missingKeyMsg (k : String) : String :=
  "Missing configuration value: " ++ undefinedMessage k

/-- The message of the `TutorError` raised by `Renderer.patch`
(lines 80-85) on a missing configuration key inside a patch body. -/
def patchErrorMsg (k name plugin : String) : String :=
  "Missing configuration value: " ++ undefinedMessage k ++ " in patch " ++
    sq ++ name ++ sq ++ " from plugin " ++ plugin

/-- `Renderer.__render(template)` (lines 110-116): render against the stored
configuration; wrap a jinja2 `UndefinedError` into a `TutorError` naming the
missing key. -/
def Renderer.renderAux (r : Renderer) (template : Template) :
    Except String String :=
  match renderTemplate r.config template with
  | .ok s => .ok s
  | .error k => .error (missingKeyMsg k)

/-- `Renderer.render_str(text)` (lines 91-93): compile the string as a
template and render it. -/
def Renderer.render_str (r : Renderer) (text : Template) :
    Except String String :=
  Renderer.renderAux r text

/-- `Renderer.render_file(path)` (lines 95-108): look the template up through
the loader, then render it; a loading failure or a rendering failure is
logged and propagated. -/
def Renderer.render_file (tfs : TemplateFS) (r : Renderer) (path : String) :
    Except String String :=
  match getTemplate tfs r.template_roots path with
  | none => .error ("Error loading template " ++ path)
  | some template => Renderer.renderAux r template

/-- The accumulation loop of `Renderer.patch` (lines 75-85): render each
(plugin, patch text) pair in enumeration order, collecting the rendered
strings; a missing key aborts with a `TutorError` naming the key, the patch
name and the contributing plugin. -/
def renderPatchesAux (config : Config) (name : String) :
    List (String × Template) → Except String (List String)
  | [] => .ok []
  | (plugin, p) :: rest =>
    match renderTemplate config p with
    | .error k => .error (patchErrorMsg k name plugin)
    | .ok s =>
      match renderPatchesAux config name rest with
      | .error e => .error e
      | .ok ss => .ok (s :: ss)

/-- `Renderer.patch(name, separator="\n", suffix="")` (lines 71-89): render
every patch registered under `name` (as enumerated by
`plugins.iter_patches(self.config, name)`), join with `separator`, and append
`suffix` when the joined result is non-empty (Python string truthiness). -/
def Renderer.patch
    (iter_patches : Config → String → List (String × Template))
    (r : Renderer) (name : String) (separator : String := "\n")
    (suffix : String := "") : Except String String :=
  match renderPatchesAux r.config name (iter_patches r.config name) with
  | .error e => .error e
  | .ok patches =>
    let rendered := String.intercalate separator patches
    .ok (if rendered = "" then rendered else rendered ++ suffix)

/-! ## Path helpers and version stamp (`env.py`, lines 216-301) -/

/-- Model of `os.path.join(a, b)` for the relative second arguments used by
the source. -/
def osJoin (a b : String) : String :=
  if a = "" then b else a ++ "/" ++ b

/-- `root_dir(root)` (lines 297-301): `os.path.abspath(root)`; roots are
taken to be absolute already, so this is the identity in the model. -/
def root_dir (root : String) : String := root

/-- `base_dir(root)` (lines 290-294): the environment base directory. -/
def base_dir (root : String) : String :=
  osJoin (root_dir root) "env"

/-- `pathjoin(root, path)` (lines 283-287) with one path component. -/
def pathjoin (root path : String) : String :=
  osJoin (base_dir root) path

/-- A readable file system: maps an absolute path to the file's content, or
`none` when no file exists there (`os.path.exists` is false). -/
abbrev ReadFS := String → Option String

/-- `version(root)` (lines 235-243): the stored version marker, stripped; the
sentinel `"0"` when the marker file does not exist. -/
def version (fsRead : ReadFS) (root : String) : String :=
  match fsRead (pathjoin root VERSION_FILENAME) with
  | none => "0"
  | some content => pyStrip content

/-- `is_up_to_date(root)` (lines 228-232): the stored version equals the
running tool's version `__version__` (imported from `tutor.__about__`,
abstracted here as the parameter `tutor_version`). -/
def is_up_to_date (tutor_version : String) (fsRead : ReadFS) (root : String) :
    Bool :=
  version fsRead root = tutor_version

/-! ## Tree walker and save driver (`env.py`, lines 56-69 and 119-170) -/

/-- `is_part_of_env(path)` (lines 255-266): whether a template should be
rendered.  Mirrors the source statement by statement. -/
def is_part_of_env (path : String) : Bool :=
  let parts := pySplit '/' path
  let basename := parts.getLastD ""
  let is_excluded := false
  let is_excluded := is_excluded || pyStartswith basename "." ||
    pyEndswith basename ".pyc"
  let is_excluded := is_excluded || basename = "__pycache__"
  let is_excluded := is_excluded || parts.contains "partials"
  !is_excluded

/-- `Renderer.iter_templates_in(*path)` (lines 56-60): the templates listed
by the loader (`listTemplates`, in the loader's enumeration order) that start
with the prefix and pass the renderability filter. -/
def iter_templates_in (listTemplates : List String) (pre : String) :
    List String :=
  listTemplates.filter (fun t => pyStartswith t pre && is_part_of_env t)

/-- The write side of the file system: the ordered list of (path, content)
writes performed so far. -/
abbrev WriteFS := List (String × String)

/-- `write_to(content, path)` (lines 167-170): record the write. -/
def write_to (content path : String) (fs : WriteFS) : WriteFS :=
  fs ++ [(path, content)]

/-- The loop body of `save_all_from` (lines 160-164): render each template in
turn and write it under `root`; an exception from `render_file` aborts the
loop, leaving the writes performed so far in place (no rollback). -/
def saveTemplates (tfs : TemplateFS) (r : Renderer) (root : String) :
    List String → WriteFS → WriteFS × Option String
  | [], fs => (fs, none)
  | t :: rest, fs =>
    match Renderer.render_file tfs r t with
    | .error e => (fs, some e)
    | .ok rendered => saveTemplates tfs r root rest
        (write_to rendered (osJoin root t) fs)

/-- `save_all_from(prefix, root, config)` (lines 155-164): render the
templates that start with the prefix and store them with the same hierarchy
at `root`.  The renderer is obtained through `Renderer.instance(config)`. -/
def save_all_from (tfs : TemplateFS) (listTemplates : List String)
    (iter_enabled : Config → List Plugin) (pre root : String)
    (config : Config) (fs : WriteFS) : WriteFS × Option String :=
  let renderer := (Renderer.instance' iter_enabled config none).1
  saveTemplates tfs renderer root (iter_templates_in listTemplates pre) fs

/-- The fixed top-level prefixes rendered by `save` (lines 124-134). -/
def SAVE_PREFIXES : List String :=
  ["android/", "apps/", "build/", "dev/", "k8s/", "local/", "webui/",
   VERSION_FILENAME, "kustomization.yml"]

/-- The prefix loop of `save` (lines 124-135): run `save_all_from` for each
prefix in turn; an exception aborts the pass, leaving earlier writes in
place. -/
def savePrefixLoop (tfs : TemplateFS) (listTemplates : List String)
    (iter_enabled : Config → List Plugin) (root_env : String)
    (config : Config) : List String → WriteFS → WriteFS × Option String
  | [], fs => (fs, none)
  | p :: rest, fs =>
    match save_all_from tfs listTemplates iter_enabled p root_env config fs with
    | (fs', none) =>
      savePrefixLoop tfs listTemplates iter_enabled root_env config rest fs'
    | (fs', some e) => (fs', some e)

/-- `save_plugin_templates(plugin, root, config)` (lines 144-152): render the
"apps" and "build" subtrees of one plugin under `plugins/<plugin name>`. -/
def save_plugin_templates (tfs : TemplateFS) (listTemplates : List String)
    (iter_enabled : Config → List Plugin) (plugin : Plugin) (root : String)
    (config : Config) (fs : WriteFS) : WriteFS × Option String :=
  let plugins_root := pathjoin root "plugins"
  match save_all_from tfs listTemplates iter_enabled
      (osJoin plugin.name "apps") plugins_root config fs with
  | (fs', none) => save_all_from tfs listTemplates iter_enabled
      (osJoin plugin.name "build") plugins_root config fs'
  | (fs', some e) => (fs', some e)

/-- The plugin loop of `save` (lines 137-139). -/
def savePluginLoop (tfs : TemplateFS) (listTemplates : List String)
    (iter_enabled : Config → List Plugin) (root : String) (config : Config) :
    List Plugin → WriteFS → WriteFS × Option String
  | [], fs => (fs, none)
  | plugin :: rest, fs =>
    match plugin.templates_root with
    | none => savePluginLoop tfs listTemplates iter_enabled root config rest fs
    | some rt =>
      if rt = "" then
        savePluginLoop tfs listTemplates iter_enabled root config rest fs
      else
        match save_plugin_templates tfs listTemplates iter_enabled plugin
            root config fs with
        | (fs', none) =>
          savePluginLoop tfs listTemplates iter_enabled root config rest fs'
        | (fs', some e) => (fs', some e)

/-- `save(root, config)` (lines 119-141): the whole save pass — the fixed
prefixes into the environment directory, then each enabled plugin's "apps"
and "build" subtrees. -/
def save (tfs : TemplateFS) (listTemplates : List String)
    (iter_enabled : Config → List Plugin) (root : String) (config : Config)
    (fs : WriteFS) : WriteFS × Option String :=
  let root_env := base_dir root
  match savePrefixLoop tfs listTemplates iter_enabled root_env config
      SAVE_PREFIXES fs with
  | (fs', none) => savePluginLoop tfs listTemplates iter_enabled root config
      (iter_enabled config) fs'
  | (fs', some e) => (fs', some e)

/-! ## The caller's mutable mapping (for the defensive-copy property) -/

/-- A heap of configuration objects: the caller's mutable `dict`s, addressed
by location. -/
abbrev Heap := Nat → Config

/-- Mutating the mapping stored at address `a`. -/
def heapWrite (h : Heap) (a : Nat) (c : Config) : Heap :=
  fun x => if x = a then c else h x

/-- `Renderer.__init__` reading the caller's mapping from the heap:
`deepcopy(config)` (line 40) stores the value `h a` in the renderer, not the
address `a`. -/
def Renderer.initFromHeap (h : Heap) (a : Nat) (template_roots : List String) :
    Renderer :=
  Renderer.init (h a) template_roots

/-- Construct a renderer from the mapping at address `a`, then let the caller
mutate that mapping to `c'`, then render `t`: the program whose outcome the
defensive copy keeps independent of the mutation. -/
def renderAfterMutation (h : Heap) (a : Nat) (template_roots : List String)
    (c' : Config) (t : Template) : Except String String :=
  let r := Renderer.initFromHeap h a template_roots
  let _h' := heapWrite h a c'
  Renderer.render_str r t

/-! ## The renderability predicate as the specification words it (for
comparison with `is_part_of_env`) -/

/-- The renderability predicate as stated by the specification: no path
segment starts with `.`, no segment equals `__pycache__`, no segment is
named `partials`, and the file name does not end in `.pyc`. -/
def specRenderable (path : String) : Bool :=
  let parts := pySplit '/' path
  (parts.all fun part =>
    !pyStartswith part "." && part != "__pycache__" && part != "partials")
    && !pyEndswith (parts.getLastD "") ".pyc"

/-! ## Theorems -/

/-- C4 (counterexample): `is_part_of_env` does not test every path segment.
The path `".git/config"` has a segment starting with `.` (and the path
`"__pycache__/keep.txt"` has a `__pycache__` segment), so the
specification's predicate rejects it, yet `is_part_of_env` accepts it: the
source only inspects the final segment for the dot, `.pyc` and
`__pycache__` tests. -/
theorem is_part_of_env_not_segmentwise :
    is_part_of_env ".git/config" = true
      ∧ specRenderable ".git/config" = false
      ∧ is_part_of_env "__pycache__/keep.txt" = true
      ∧ specRenderable "__pycache__/keep.txt" = false := by
  decide

/-- C4 (amended): `is_part_of_env path` returns `true` iff the final path
segment (the file name) does not start with `.`, does not end in `.pyc`, is
not `__pycache__`, and no segment of the path equals `partials`. -/
theorem is_part_of_env_characterization (path : String) :
    is_part_of_env path = true ↔
      (pyStartswith ((pySplit '/' path).getLastD "") "." = false
       ∧ pyEndswith ((pySplit '/' path).getLastD "") ".pyc" = false
       ∧ (pySplit '/' path).getLastD "" ≠ "__pycache__"
       ∧ (pySplit '/' path).contains "partials" = false) := by
  simp only [is_part_of_env, Bool.false_or, Bool.not_eq_true',
    Bool.or_eq_false_iff, decide_eq_false_iff_not]
  tauto

/-- Witness for the amended C4 at a concrete renderable path. -/
theorem is_part_of_env_characterization_witness :
    is_part_of_env "local/docker-compose.yml" = true :=
  (is_part_of_env_characterization "local/docker-compose.yml").mpr (by decide)

/-- C5: `Renderer.instance` with an unchanged configuration returns the
cached renderer as is (same object, cache untouched, no rebuild); with an
altered configuration it builds and caches a fresh renderer for the new
configuration. -/
theorem instance_cache_behavior (iter_enabled : Config → List Plugin)
    (config : Config) (r : Renderer) :
    (r.config = config → Renderer.instance' iter_enabled config (some r) = (r, some r))
      ∧ (r.config ≠ config →
          Renderer.instance' iter_enabled config (some r) =
            (Renderer.build iter_enabled config,
             some (Renderer.build iter_enabled config))) := by
  constructor <;> intro h <;> simp [Renderer.instance', h]

/-- Witness for C5: a cache hit at a concrete configuration returns the
cached renderer unchanged. -/
theorem instance_cache_behavior_witness :
    Renderer.instance' (fun _ => []) [("ID", "myid")]
        (some (Renderer.init [("ID", "myid")] [TEMPLATES_ROOT]))
      = (Renderer.init [("ID", "myid")] [TEMPLATES_ROOT],
         some (Renderer.init [("ID", "myid")] [TEMPLATES_ROOT])) :=
  (instance_cache_behavior (fun _ => []) [("ID", "myid")]
    (Renderer.init [("ID", "myid")] [TEMPLATES_ROOT])).1 rfl

/-- C6: `version root` is the sentinel `"0"` when the marker file is absent,
and `is_up_to_date` holds exactly when the stored marker equals the running
tool's version. -/
theorem version_sentinel_and_up_to_date (fsRead : ReadFS) (root ver : String) :
    (fsRead (pathjoin root VERSION_FILENAME) = none → version fsRead root = "0")
      ∧ (is_up_to_date ver fsRead root = true ↔ version fsRead root = ver) := by
  constructor
  · intro h
    simp [version, h]
  · simp [is_up_to_date]

/-- Witness for C6 at a concrete root with no marker file. -/
theorem version_sentinel_and_up_to_date_witness :
    version (fun _ => none) "/tutor-root" = "0"
      ∧ is_up_to_date "0" (fun _ => none) "/tutor-root" = true :=
  ⟨(version_sentinel_and_up_to_date (fun _ => none) "/tutor-root" "0").1 rfl,
   (version_sentinel_and_up_to_date (fun _ => none) "/tutor-root" "0").2.mpr
     ((version_sentinel_and_up_to_date (fun _ => none) "/tutor-root" "0").1 rfl)⟩

/-- C10: when the marker file exists, `version root` is its content with
surrounding whitespace stripped, so a marker written with a trailing newline
still compares equal to the bare version string in `is_up_to_date`. -/
theorem version_strips_marker (fsRead : ReadFS) (root ver c : String)
    (h : fsRead (pathjoin root VERSION_FILENAME) = some c) :
    version fsRead root = pyStrip c
      ∧ (pyStrip c = ver → is_up_to_date ver fsRead root = true) := by
  constructor
  · simp [version, h]
  · intro hv
    simp [is_up_to_date, version, h, hv]

/-- Witness for C10: a marker `"3.12.6\n"` with a trailing newline yields
the bare version string, and the environment counts as up to date. -/
theorem version_strips_marker_witness :
    (fun p => if p = pathjoin "/r" VERSION_FILENAME then some "3.12.6\n" else none)
        (pathjoin "/r" VERSION_FILENAME) = some "3.12.6\n"
      ∧ version (fun p => if p = pathjoin "/r" VERSION_FILENAME then some "3.12.6\n" else none) "/r"
          = pyStrip "3.12.6\n"
      ∧ is_up_to_date "3.12.6"
          (fun p => if p = pathjoin "/r" VERSION_FILENAME then some "3.12.6\n" else none) "/r" = true := by
  refine ⟨by simp, ?_, ?_⟩
  · exact (version_strips_marker _ "/r" "3.12.6" "3.12.6\n" (by simp)).1
  · exact (version_strips_marker _ "/r" "3.12.6" "3.12.6\n" (by simp)).2 (by decide)

/-- C9: the defensive copy taken by `Renderer.__init__` insulates the
renderer from later mutation of the caller's mapping: constructing a
renderer from the mapping at address `a`, then mutating that mapping to
`c'`, then rendering, gives exactly the result of rendering with the
construction-time value `h a`; the mutation is visible in the heap, but the
renderer's stored configuration keeps the construction-time value. -/
theorem deepcopy_insulates_renderer (h : Heap) (a : Nat)
    (template_roots : List String) (c' : Config) (t : Template) :
    renderAfterMutation h a template_roots c' t
        = Renderer.render_str (Renderer.init (h a) template_roots) t
      ∧ (Renderer.initFromHeap h a template_roots).config = h a
      ∧ heapWrite h a c' a = c' := by
  refine ⟨rfl, rfl, ?_⟩
  simp [heapWrite]

/-- The truthy template root of a plugin, if any. -/
def truthyRoot (p : Plugin) : Option String :=
  match p.templates_root with
  | some rt => if rt = "" then none else some rt
  | none => none

/-- The accumulation loop of `Renderer.instance` appends exactly the truthy
plugin roots, in order, after the accumulator. -/
theorem templateRootsFor_foldl (enabled : List Plugin) :
    ∀ acc : List String,
      enabled.foldl
          (fun template_roots plugin =>
            match plugin.templates_root with
            | some rt => if rt = "" then template_roots
                else template_roots ++ [rt]
            | none => template_roots)
          acc
        = acc ++ enabled.filterMap truthyRoot := by
  induction enabled with
  | nil => intro acc; simp
  | cons p rest ih =>
    intro acc
    simp only [List.foldl_cons, List.filterMap_cons]
    cases hp : p.templates_root with
    | none => simp [hp, ih acc, truthyRoot]
    | some rt =>
      by_cases hrt : rt = ""
      · simp [hp, hrt, ih acc, truthyRoot]
      · simp [hp, hrt, ih (acc ++ [rt]), truthyRoot]

/-- C7: the built renderer's template roots are the core root first, then
each enabled plugin's (truthy) template root in plugin-enumeration order;
and the loader model resolves a path to the first root holding it
(first-match-wins shadowing). -/
theorem template_roots_order_and_shadowing
    (iter_enabled : Config → List Plugin) (config : Config) :
    (Renderer.build iter_enabled config).template_roots
        = TEMPLATES_ROOT :: (iter_enabled config).filterMap truthyRoot
      ∧ (∀ (tfs : TemplateFS) (roots₁ roots₂ : List String) (rt p : String)
           (t : Template),
          (∀ r' ∈ roots₁, tfs r' p = none) → tfs rt p = some t →
          getTemplate tfs (roots₁ ++ rt :: roots₂) p = some t) := by
  constructor
  · show templateRootsFor (iter_enabled config)
        = TEMPLATES_ROOT :: (iter_enabled config).filterMap truthyRoot
    rw [templateRootsFor, templateRootsFor_foldl]
    rfl
  · intro tfs roots₁ roots₂ rt p t hnone hsome
    induction roots₁ with
    | nil => simp [getTemplate, hsome]
    | cons r' rest ih =>
      have h1 : tfs r' p = none := hnone r' (List.mem_cons_self r' rest)
      have h2 : ∀ x ∈ rest, tfs x p = none :=
        fun x hx => hnone x (List.mem_cons_of_mem r' hx)
      simpa [getTemplate, h1] using ih h2

/-- Witness for C7 at a concrete configuration: one enabled plugin with a
root, one without, and shadowing of a path present in two roots. -/
theorem template_roots_order_and_shadowing_witness :
    (Renderer.build
        (fun _ => [⟨"p1", some "/p1/templates"⟩, ⟨"p2", none⟩]) []).template_roots
      = [TEMPLATES_ROOT, "/p1/templates"]
      ∧ getTemplate
          (fun root _ => if root = TEMPLATES_ROOT then some [Node.text "core"]
            else some [Node.text "plugin"])
          [TEMPLATES_ROOT, "/p1/templates"] "apps/x"
        = some [Node.text "core"] := by
  constructor
  · exact (template_roots_order_and_shadowing
      (fun _ => [⟨"p1", some "/p1/templates"⟩, ⟨"p2", none⟩]) []).1
  · exact (template_roots_order_and_shadowing (fun _ => []) []).2
      (fun root _ => if root = TEMPLATES_ROOT then some [Node.text "core"]
        else some [Node.text "plugin"])
      [] ["/p1/templates"] TEMPLATES_ROOT "apps/x" [Node.text "core"]
      (by simp) (by simp)

/-- When every (plugin, text) pair renders successfully (pointwise, in
order, to the list `rs`), the accumulation loop of `Renderer.patch` returns
exactly `rs`. -/
theorem renderPatchesAux_of_forall2 (config : Config) (name : String)
    (l : List (String × Template)) (rs : List String)
    (hf : List.Forall₂ (fun pr s => renderTemplate config pr.2 = .ok s) l rs) :
    renderPatchesAux config name l = .ok rs := by
  induction hf with
  | nil => rfl
  | @cons pr s l' rs' hhead _ ih =>
    obtain ⟨plugin, p⟩ := pr
    simp only at hhead
    simp [renderPatchesAux, hhead, ih]

/-- When every pair in the enumeration renders successfully, the pointwise
relation holds against the list of rendered values read off the rendering
function itself. -/
theorem forall2_of_all_ok (config : Config) (l : List (String × Template))
    (hall : ∀ pr ∈ l, ∃ s, renderTemplate config pr.2 = .ok s) :
    List.Forall₂ (fun pr s => renderTemplate config pr.2 = .ok s) l
      (l.map fun pr => ((renderTemplate config pr.2).toOption.getD "")) := by
  induction l with
  | nil => exact List.Forall₂.nil
  | cons pr rest ih =>
    obtain ⟨s, hs⟩ := hall pr (List.mem_cons_self pr rest)
    refine List.Forall₂.cons ?_ (ih fun pr' h' => hall pr' (List.mem_cons_of_mem pr h'))
    show renderTemplate config pr.2
      = .ok ((renderTemplate config pr.2).toOption.getD "")
    rw [hs]
    rfl

/-- C1: when every patch registered under `name` renders successfully,
`Renderer.patch` renders each (plugin, patch-text) pair against the stored
configuration and returns the rendered texts joined by the separator, in the
order in which the plugin collaborator enumerates them (with the suffix
appended to a non-empty join). -/
theorem patch_joins_renders_in_order
    (iter_patches : Config → String → List (String × Template))
    (r : Renderer) (name separator suffix : String)
    (hall : ∀ pr ∈ iter_patches r.config name,
      ∃ s, renderTemplate r.config pr.2 = .ok s) :
    Renderer.patch iter_patches r name separator suffix =
      .ok (let rendered := String.intercalate separator
            ((iter_patches r.config name).map
              fun pr => ((renderTemplate r.config pr.2).toOption.getD ""));
          if rendered = "" then rendered else rendered ++ suffix) := by
  have hf := forall2_of_all_ok r.config (iter_patches r.config name) hall
  have haux := renderPatchesAux_of_forall2 r.config name _ _ hf
  simp [Renderer.patch, haux]

/-- Witness for C1: the specification's own test — two plugins each
contributing one line to patch "X" yield the two lines joined by the
default separator, in plugin-enumeration order. -/
theorem patch_joins_renders_in_order_witness :
    Renderer.patch
        (fun _ _ => [("p1", [Node.text "line one"]), ("p2", [Node.text "line two"])])
        (Renderer.init [] [TEMPLATES_ROOT]) "X" "\n" ""
      = .ok "line one\nline two" := by
  have := patch_joins_renders_in_order
    (fun _ _ => [("p1", [Node.text "line one"]), ("p2", [Node.text "line two"])])
    (Renderer.init [] [TEMPLATES_ROOT]) "X" "\n" ""
    (by
      intro pr hpr
      simp only [List.mem_cons, List.not_mem_nil, or_false] at hpr
      rcases hpr with h | h <;> subst h <;> exact ⟨_, rfl⟩)
  simpa using this

/-- C2: `Renderer.patch` appends the suffix exactly when the
separator-joined rendering is non-empty; with zero contributing plugins the
result is the empty string with no suffix. -/
theorem patch_suffix_iff_nonempty
    (iter_patches : Config → String → List (String × Template))
    (r : Renderer) (name separator suffix : String) :
    (∀ rs, List.Forall₂ (fun pr s => renderTemplate r.config pr.2 = .ok s)
        (iter_patches r.config name) rs →
      Renderer.patch iter_patches r name separator suffix
        = .ok (if String.intercalate separator rs = "" then
            String.intercalate separator rs
          else String.intercalate separator rs ++ suffix))
      ∧ (iter_patches r.config name = [] →
          Renderer.patch iter_patches r name separator suffix = .ok "") := by
  constructor
  · intro rs hf
    simp [Renderer.patch, renderPatchesAux_of_forall2 r.config name _ _ hf]
  · intro hempty
    simp [Renderer.patch, hempty, renderPatchesAux, String.intercalate]

/-- Witness for C2: the specification's own test — patch "Y" with zero
contributing plugins returns the empty string even with a non-empty suffix;
and a non-empty join does get the suffix. -/
theorem patch_suffix_iff_nonempty_witness :
    Renderer.patch (fun _ _ => []) (Renderer.init [] [TEMPLATES_ROOT])
        "Y" "\n" "###"
      = .ok ""
      ∧ Renderer.patch (fun _ _ => [("p1", [Node.text "hello"])])
          (Renderer.init [] [TEMPLATES_ROOT]) "X" "\n" "###"
        = .ok "hello###" := by
  constructor
  · exact (patch_suffix_iff_nonempty (fun _ _ => [])
      (Renderer.init [] [TEMPLATES_ROOT]) "Y" "\n" "###").2 rfl
  · have := (patch_suffix_iff_nonempty
      (fun _ _ => [("p1", [Node.text "hello"])])
      (Renderer.init [] [TEMPLATES_ROOT]) "X" "\n" "###").1 ["hello"]
      (List.Forall₂.cons rfl List.Forall₂.nil)
    simpa using this

/-- A render error carries a key that is genuinely absent from the
configuration and genuinely referenced by the template. -/
theorem renderTemplate_error_missing (config : Config) :
    ∀ (t : Template) (k : String), renderTemplate config t = .error k →
      Config.get config k = none ∧ k ∈ templateVars t := by
  intro t
  induction t with
  | nil => intro k hk; simp [renderTemplate] at hk
  | cons n rest ih =>
    intro k hk
    cases n with
    | text s =>
      simp only [renderTemplate] at hk
      cases hr : renderTemplate config rest with
      | ok v => rw [hr] at hk; simp [Except.map] at hk
      | error e =>
        rw [hr] at hk
        simp [Except.map] at hk
        subst hk
        exact ⟨(ih e hr).1, by simp [templateVars, (ih e hr).2]⟩
    | var k' =>
      simp only [renderTemplate] at hk
      cases hg : Config.get config k' with
      | none =>
        rw [hg] at hk
        simp at hk
        subst hk
        exact ⟨hg, by simp [templateVars]⟩
      | some v =>
        rw [hg] at hk
        cases hr : renderTemplate config rest with
        | ok w => rw [hr] at hk; simp [Except.map] at hk
        | error e =>
          rw [hr] at hk
          simp [Except.map] at hk
          subst hk
          exact ⟨(ih e hr).1, by simp [templateVars, (ih e hr).2]⟩

/-- A successful render had every referenced key present in the
configuration. -/
theorem renderTemplate_ok_vars_present (config : Config) :
    ∀ (t : Template) (s : String), renderTemplate config t = .ok s →
      ∀ k ∈ templateVars t, ∃ v, Config.get config k = some v := by
  intro t
  induction t with
  | nil => intro s _ k hk; simp [templateVars] at hk
  | cons n rest ih =>
    intro s hs k hk
    cases n with
    | text txt =>
      simp only [renderTemplate] at hs
      simp only [templateVars] at hk
      cases hr : renderTemplate config rest with
      | error e => rw [hr] at hs; simp [Except.map] at hs
      | ok w => exact ih w hr k hk
    | var k' =>
      simp only [renderTemplate] at hs
      simp only [templateVars, List.mem_cons] at hk
      cases hg : Config.get config k' with
      | none => rw [hg] at hs; simp at hs
      | some v =>
        rw [hg] at hs
        cases hr : renderTemplate config rest with
        | error e => rw [hr] at hs; simp [Except.map] at hs
        | ok w =>
          rcases hk with hk | hk
          · subst hk; exact ⟨v, hg⟩
          · exact ih w hr k hk

/-- The accumulation loop of `Renderer.patch` fails with the patch error
message for the first pair whose body references a missing key, after all
earlier pairs rendered successfully. -/
theorem renderPatchesAux_error_at (config : Config) (name : String)
    (l₁ : List (String × Template)) (plg : String) (pt : Template)
    (l₂ : List (String × Template)) (k : String)
    (hok : ∀ pr ∈ l₁, ∃ s, renderTemplate config pr.2 = .ok s)
    (hfail : renderTemplate config pt = .error k) :
    renderPatchesAux config name (l₁ ++ (plg, pt) :: l₂)
      = .error (patchErrorMsg k name plg) := by
  induction l₁ with
  | nil => simp [renderPatchesAux, hfail]
  | cons pr rest ih =>
    obtain ⟨plugin, p⟩ := pr
    obtain ⟨s, hs⟩ := hok _ (List.mem_cons_self _ _)
    simp only at hs
    have hrest := ih fun pr' h' => hok pr' (List.mem_cons_of_mem _ h')
    simp [renderPatchesAux, hs, hrest]

/-- C3: a template referencing a missing configuration key never renders to
a value; `render_str` and `render_file` fail with a `TutorError` whose
message names the exact missing key, and a failure inside a patch body fails
with a message naming the key, the patch name and the contributing
plugin. -/
theorem missing_key_errors
    (tfs : TemplateFS) (r : Renderer) (path : String) (t pt : Template)
    (k k' : String)
    (iter_patches : Config → String → List (String × Template))
    (name separator suffix plg : String)
    (l₁ l₂ : List (String × Template))
    (ht : renderTemplate r.config t = .error k)
    (hf : getTemplate tfs r.template_roots path = some t)
    (hsplit : iter_patches r.config name = l₁ ++ (plg, pt) :: l₂)
    (hok : ∀ pr ∈ l₁, ∃ s, renderTemplate r.config pr.2 = .ok s)
    (hk' : renderTemplate r.config pt = .error k') :
    Renderer.render_str r t = .error (missingKeyMsg k)
      ∧ Config.get r.config k = none
      ∧ k ∈ templateVars t
      ∧ (∃ a b, missingKeyMsg k = a ++ k ++ b)
      ∧ Renderer.render_file tfs r path = .error (missingKeyMsg k)
      ∧ Renderer.patch iter_patches r name separator suffix
          = .error (patchErrorMsg k' name plg)
      ∧ (∃ a b, patchErrorMsg k' name plg = a ++ k' ++ b)
      ∧ (∃ a b, patchErrorMsg k' name plg = a ++ name ++ b)
      ∧ (∃ a b, patchErrorMsg k' name plg = a ++ plg ++ b)
      ∧ Config.get r.config k' = none
      ∧ k' ∈ templateVars pt
      ∧ (∀ t' : Template,
          (∃ k₀ ∈ templateVars t', Config.get r.config k₀ = none) →
          ∀ s, Renderer.render_str r t' ≠ .ok s) := by
  have hmiss := renderTemplate_error_missing r.config t k ht
  have hmiss' := renderTemplate_error_missing r.config pt k' hk'
  refine ⟨?_, hmiss.1, hmiss.2, ?_, ?_, ?_, ?_, ?_, ?_, hmiss'.1, hmiss'.2, ?_⟩
  · simp [Renderer.render_str, Renderer.renderAux, ht]
  · exact ⟨"Missing configuration value: " ++ sq, sq ++ " is undefined",
      by simp [missingKeyMsg, undefinedMessage, String.append_assoc]⟩
  · simp [Renderer.render_file, hf, Renderer.renderAux, ht]
  · have haux := renderPatchesAux_error_at r.config name l₁ plg pt l₂ k' hok hk'
    simp [Renderer.patch, hsplit, haux]
  · exact ⟨"Missing configuration value: " ++ sq,
      sq ++ " is undefined" ++ " in patch " ++ sq ++ name ++ sq
        ++ " from plugin " ++ plg,
      by simp [patchErrorMsg, undefinedMessage, String.append_assoc]⟩
  · exact ⟨"Missing configuration value: " ++ undefinedMessage k'
        ++ " in patch " ++ sq,
      sq ++ " from plugin " ++ plg,
      by simp [patchErrorMsg, String.append_assoc]⟩
  · exact ⟨"Missing configuration value: " ++ undefinedMessage k'
        ++ " in patch " ++ sq ++ name ++ sq ++ " from plugin ", "",
      by simp [patchErrorMsg, String.append_assoc]⟩
  · intro t' hmiss' s hok'
    obtain ⟨k₀, hk₀mem, hk₀none⟩ := hmiss'
    have hrt : renderTemplate r.config t' = .ok s := by
      have := hok'
      simp only [Renderer.render_str, Renderer.renderAux] at this
      cases hr : renderTemplate r.config t' with
      | ok w =>
        rw [hr] at this
        simp at this
        rw [this]
      | error e => rw [hr] at this; simp at this
    obtain ⟨v, hv⟩ := renderTemplate_ok_vars_present r.config t' s hrt k₀ hk₀mem
    rw [hv] at hk₀none
    exact Option.noConfusion hk₀none

/-- Witness for C3: a configuration holding only `"A"`, a template
referencing `"B"`, and a one-plugin patch referencing `"C"`: both failures
surface the expected messages. -/
theorem missing_key_errors_witness :
    Renderer.render_str (Renderer.init [("A", "1")] [TEMPLATES_ROOT])
        [Node.var "B"]
      = .error (missingKeyMsg "B")
      ∧ Renderer.patch (fun _ _ => [("pluginA", [Node.var "C"])])
          (Renderer.init [("A", "1")] [TEMPLATES_ROOT]) "mypatch" "\n" ""
        = .error (patchErrorMsg "C" "mypatch" "pluginA") := by
  have h := missing_key_errors
    (fun root p =>
      if root = TEMPLATES_ROOT ∧ p = "apps/f" then some [Node.var "B"] else none)
    (Renderer.init [("A", "1")] [TEMPLATES_ROOT]) "apps/f"
    [Node.var "B"] [Node.var "C"] "B" "C"
    (fun _ _ => [("pluginA", [Node.var "C"])])
    "mypatch" "\n" "" "pluginA" [] []
    rfl (by simp [getTemplate, Renderer.init]) rfl
    (by intro pr hpr; exact absurd hpr (List.not_mem_nil pr)) rfl
  exact ⟨h.1, h.2.2.2.2.2.1⟩

/-- `save_all_from` is the template loop run on the renderer obtained from
`Renderer.instance` (with an empty cache, `instance` builds and returns the
renderer for the configuration). -/
theorem save_all_from_eq (tfs : TemplateFS) (listTemplates : List String)
    (iter_enabled : Config → List Plugin) (pre root : String)
    (config : Config) (fs : WriteFS) :
    save_all_from tfs listTemplates iter_enabled pre root config fs
      = saveTemplates tfs (Renderer.build iter_enabled config) root
          (iter_templates_in listTemplates pre) fs := rfl

/-- Running the save loop across templates that all render successfully
appends exactly their writes, in order, and continues with the rest. -/
theorem saveTemplates_ok_prefix (tfs : TemplateFS) (r : Renderer)
    (root : String) (l₁ : List String) (cs : List String)
    (hf : List.Forall₂ (fun u c => Renderer.render_file tfs r u = .ok c) l₁ cs) :
    ∀ (rest : List String) (fs : WriteFS),
      saveTemplates tfs r root (l₁ ++ rest) fs
        = saveTemplates tfs r root rest
            (fs ++ (l₁.zip cs).map fun uc => (osJoin root uc.1, uc.2)) := by
  induction hf with
  | nil => intro rest fs; simp
  | @cons u c l' cs' hhead _ ih =>
    intro rest fs
    simp only [List.cons_append, saveTemplates, hhead, List.append_eq]
    rw [ih rest]
    simp [write_to]

/-- C8: if one template of a save pass fails to render, the failure
propagates: `save_all_from` stops at the failing template, the writes of the
successfully rendered earlier templates stay in place (no rollback), no
later template is rendered or written, and the surrounding prefix loop of
`save` processes no further prefix. -/
theorem save_pass_aborts_on_failure
    (tfs : TemplateFS) (listTemplates : List String)
    (iter_enabled : Config → List Plugin) (pre root : String)
    (config : Config) (fs : WriteFS)
    (l₁ : List String) (t : String) (l₂ : List String) (cs : List String)
    (e : String)
    (hsplit : iter_templates_in listTemplates pre = l₁ ++ t :: l₂)
    (hok : List.Forall₂ (fun u c =>
      Renderer.render_file tfs (Renderer.build iter_enabled config) u = .ok c)
      l₁ cs)
    (hfail : Renderer.render_file tfs (Renderer.build iter_enabled config) t
      = .error e) :
    save_all_from tfs listTemplates iter_enabled pre root config fs
        = (fs ++ (l₁.zip cs).map fun uc => (osJoin root uc.1, uc.2), some e)
      ∧ ∀ restPre : List String,
          savePrefixLoop tfs listTemplates iter_enabled root config
              (pre :: restPre) fs
            = (fs ++ (l₁.zip cs).map fun uc => (osJoin root uc.1, uc.2),
               some e) := by
  have h1 : save_all_from tfs listTemplates iter_enabled pre root config fs
      = (fs ++ (l₁.zip cs).map fun uc => (osJoin root uc.1, uc.2), some e) := by
    rw [save_all_from_eq, hsplit,
      saveTemplates_ok_prefix tfs (Renderer.build iter_enabled config) root
        l₁ cs hok (t :: l₂) fs]
    simp [saveTemplates, hfail]
  refine ⟨h1, ?_⟩
  intro restPre
  simp [savePrefixLoop, h1]

/-- Witness for C8: a single-template tree whose only template references a
missing key; the pass stops with the missing-key error and performs no
write, and the prefix loop does not continue to the next prefix. -/
theorem save_pass_aborts_on_failure_witness :
    save_all_from
        (fun root p => if root = TEMPLATES_ROOT ∧ p = "apps/bad"
          then some [Node.var "MISS"] else none)
        ["apps/bad"] (fun _ => []) "apps/" "/out" [] []
      = ([], some (missingKeyMsg "MISS"))
      ∧ savePrefixLoop
          (fun root p => if root = TEMPLATES_ROOT ∧ p = "apps/bad"
            then some [Node.var "MISS"] else none)
          ["apps/bad"] (fun _ => []) "/out" [] ["apps/", "build/"] []
        = ([], some (missingKeyMsg "MISS")) := by
  have h := save_pass_aborts_on_failure
    (fun root p => if root = TEMPLATES_ROOT ∧ p = "apps/bad"
      then some [Node.var "MISS"] else none)
    ["apps/bad"] (fun _ => []) "apps/" "/out" [] []
    [] "apps/bad" [] [] (missingKeyMsg "MISS")
    (by decide) List.Forall₂.nil
    (by simp [Renderer.render_file, Renderer.build, templateRootsFor,
      getTemplate, Renderer.renderAux, renderTemplate, Config.get,
      Renderer.init])
  exact ⟨by simpa using h.1, by simpa using h.2 ["build/"]⟩

end Tutor
